import Mathlib

set_option linter.unusedVariables false

/-!
Verification development for the `infinite-runner` repository.

The repository consists of a graphics abstraction layer (`src/engine/graphics.h`,
`src/engine/graphics.c`), two platform backends (`src/platform/raylib_impl.c`,
`src/platform/sdl3_impl.c`), an entry point (`src/main.c`) and a design document
for a not-yet-implemented simulation core.  The graphics code is shallowly
embedded below: external library calls (Raylib / SDL3) are recorded as trace
events on an explicit backend state, C `float` fields are idealised as `ℚ`
(the adapter code only stores and forwards them, it never computes with them),
and C `int` as `Int`.  The simulation core (difficulty scheduler, physics
integrator, player state machine, obstacle generator, orchestrator) does not
exist in the sources; those parts are modelled from the specification text and
are marked `Modelled from the spec:` in their doc comments.
-/

/-! ## Data model of `src/engine/graphics.h` -/

/-- `GraphicsBackend` enum from `graphics.h`. -/
inductive GraphicsBackend where
  | GRAPHICS_RAYLIB
  | GRAPHICS_SDL3
deriving DecidableEq

/-- `GfxColor` struct from `graphics.h` (four `unsigned char` components). -/
structure GfxColor where
  r : ℕ
  g : ℕ
  b : ℕ
  a : ℕ
deriving DecidableEq

/-- `GfxRectangle` struct from `graphics.h` (`float` fields idealised as `ℚ`). -/
structure GfxRectangle where
  x : ℚ
  y : ℚ
  width : ℚ
  height : ℚ
deriving DecidableEq

/-- `COLOR_WHITE` from `graphics.h`. -/
def COLOR_WHITE : GfxColor := ⟨255, 255, 255, 255⟩

/-- `COLOR_BLACK` from `graphics.h`. -/
def COLOR_BLACK : GfxColor := ⟨0, 0, 0, 255⟩

/-- `COLOR_RED` from `graphics.h`. -/
def COLOR_RED : GfxColor := ⟨255, 0, 0, 255⟩

/-- `COLOR_GREEN` from `graphics.h`. -/
def COLOR_GREEN : GfxColor := ⟨0, 255, 0, 255⟩

/-- `COLOR_BLUE` from `graphics.h`. -/
def COLOR_BLUE : GfxColor := ⟨0, 0, 255, 255⟩

/-- `COLOR_GRAY` from `graphics.h`. -/
def COLOR_GRAY : GfxColor := ⟨128, 128, 128, 255⟩

/-! ## Raylib backend (`src/platform/raylib_impl.c`)

Raylib library calls are recorded as trace events appended to the backend
state; `WindowShouldClose` is an external condition modelled as a state flag. -/

/-- Raylib's `Color` struct. -/
structure RlColor where
  r : ℕ
  g : ℕ
  b : ℕ
  a : ℕ
deriving DecidableEq

/-- Raylib's `Rectangle` struct. -/
structure RlRectangle where
  x : ℚ
  y : ℚ
  width : ℚ
  height : ℚ
deriving DecidableEq

/-- One call into the Raylib library, as issued by `raylib_impl.c`. -/
inductive RaylibCall where
  | InitWindow (width height : Int) (title : String)
  | SetTargetFPS (fps : Int)
  | CloseWindow
  | BeginDrawing
  | EndDrawing
  | ClearBackground (c : RlColor)
  | DrawRectangleRec (rect : RlRectangle) (c : RlColor)
  | DrawText (text : String) (x y size : Int) (c : RlColor)
deriving DecidableEq

/-- State of the Raylib backend: the externally-determined result of
`WindowShouldClose` plus the trace of library calls issued so far. -/
structure RaylibState where
  windowShouldClose : Bool
  calls : List RaylibCall
deriving DecidableEq

/-- `raylib_color_from_gfx_color` from `raylib_impl.c`. -/
def raylib_color_from_gfx_color (color : GfxColor) : RlColor :=
  ⟨color.r, color.g, color.b, color.a⟩

/-- `raylib_rectangle_from_gfx_rectangle` from `raylib_impl.c`. -/
def raylib_rectangle_from_gfx_rectangle (rect : GfxRectangle) : RlRectangle :=
  ⟨rect.x, rect.y, rect.width, rect.height⟩

namespace Raylib

/-- `platform_graphics_init` from `raylib_impl.c`. -/
def platform_graphics_init (width height : Int) (title : String)
    (s : RaylibState) : RaylibState :=
  { s with calls := s.calls ++ [.InitWindow width height title, .SetTargetFPS 60] }

/-- `platform_graphics_shutdown` from `raylib_impl.c`. -/
def platform_graphics_shutdown (s : RaylibState) : RaylibState :=
  { s with calls := s.calls ++ [.CloseWindow] }

/-- `platform_graphics_should_close` from `raylib_impl.c`. -/
def platform_graphics_should_close (s : RaylibState) : Bool × RaylibState :=
  (s.windowShouldClose, s)

/-- `platform_graphics_begin_frame` from `raylib_impl.c`. -/
def platform_graphics_begin_frame (s : RaylibState) : RaylibState :=
  { s with calls := s.calls ++ [.BeginDrawing] }

/-- `platform_graphics_end_frame` from `raylib_impl.c`. -/
def platform_graphics_end_frame (s : RaylibState) : RaylibState :=
  { s with calls := s.calls ++ [.EndDrawing] }

/-- `platform_graphics_clear` from `raylib_impl.c`. -/
def platform_graphics_clear (color : GfxColor) (s : RaylibState) : RaylibState :=
  { s with calls := s.calls ++ [.ClearBackground (raylib_color_from_gfx_color color)] }

/-- `platform_graphics_draw_rectangle` from `raylib_impl.c`. -/
def platform_graphics_draw_rectangle (rect : GfxRectangle) (color : GfxColor)
    (s : RaylibState) : RaylibState :=
  { s with calls := s.calls ++
      [.DrawRectangleRec (raylib_rectangle_from_gfx_rectangle rect)
        (raylib_color_from_gfx_color color)] }

/-- `platform_graphics_draw_texture` from `raylib_impl.c`: a placeholder that
discards all its arguments and does nothing. -/
def platform_graphics_draw_texture (texture_id : Int) (dest : GfxRectangle)
    (tint : GfxColor) (s : RaylibState) : RaylibState :=
  s

/-- `platform_graphics_draw_text` from `raylib_impl.c`. -/
def platform_graphics_draw_text (text : String) (x y size : Int) (color : GfxColor)
    (s : RaylibState) : RaylibState :=
  { s with calls := s.calls ++ [.DrawText text x y size (raylib_color_from_gfx_color color)] }

/-- `platform_graphics_load_texture` from `raylib_impl.c`: always returns the
dummy texture id `1`, ignoring the filename. -/
def platform_graphics_load_texture (filename : String) (s : RaylibState) :
    Int × RaylibState :=
  (1, s)

/-- `platform_graphics_unload_texture` from `raylib_impl.c`: a no-op. -/
def platform_graphics_unload_texture (texture_id : Int) (s : RaylibState) : RaylibState :=
  s

end Raylib

/-! ## SDL3 backend (`src/platform/sdl3_impl.c`) -/

/-- An SDL event, as examined by `platform_graphics_should_close`. -/
inductive SDLEvent where
  | quit
  | keyDown (key : Int)
  | other
deriving DecidableEq

/-- The `SDLK_ESCAPE` key code. -/
def SDLK_ESCAPE : Int := 27

/-- One call into the SDL3 library, as issued by `sdl3_impl.c`. -/
inductive SdlCall where
  | SDL_Init
  | SDL_Log (msg : String)
  | SDL_CreateWindow (title : String) (width height : Int)
  | SDL_CreateRenderer
  | SDL_DestroyRenderer
  | SDL_DestroyWindow
  | SDL_Quit
  | SDL_RenderPresent
  | SDL_SetRenderDrawColor (r g b a : ℕ)
  | SDL_RenderClear
  | SDL_RenderFillRect (x y w h : ℚ)
  | SDL_RenderDebugText (x y : Int) (text : String)
deriving DecidableEq

/-- State of the SDL3 backend.  `window` and `renderer` model whether the
corresponding static pointers are non-NULL; `should_close` is the static flag
of `sdl3_impl.c`; `pending` is the event queue drained by `SDL_PollEvent`;
the three `Ok` flags are the externally-determined success of the SDL setup
calls; `calls` is the trace of library calls issued so far. -/
structure SDL3State where
  window : Bool
  renderer : Bool
  should_close : Bool
  pending : List SDLEvent
  initOk : Bool
  createWindowOk : Bool
  createRendererOk : Bool
  calls : List SdlCall
deriving DecidableEq

/-- Whether an event makes `platform_graphics_should_close` set the
`should_close` flag: `SDL_EVENT_QUIT`, or `SDL_EVENT_KEY_DOWN` with
`SDLK_ESCAPE`. -/
def isCloseEvent : SDLEvent → Bool
  | .quit => true
  | .keyDown key => key == SDLK_ESCAPE
  | .other => false

namespace SDL3

/-- `platform_graphics_init` from `sdl3_impl.c`, including its early-return
branches when `SDL_Init`, `SDL_CreateWindow` or `SDL_CreateRenderer` fail. -/
def platform_graphics_init (width height : Int) (title : String)
    (s : SDL3State) : SDL3State :=
  if !s.initOk then
    { s with calls := s.calls ++ [.SDL_Init, .SDL_Log "SDL could not initialize!"] }
  else if !s.createWindowOk then
    { s with calls := s.calls ++
        [.SDL_Init, .SDL_CreateWindow title width height,
         .SDL_Log "Window could not be created!", .SDL_Quit] }
  else if !s.createRendererOk then
    { s with window := true, calls := s.calls ++
        [.SDL_Init, .SDL_CreateWindow title width height, .SDL_CreateRenderer,
         .SDL_Log "Renderer could not be created!", .SDL_DestroyWindow, .SDL_Quit] }
  else
    { s with window := true, renderer := true, calls := s.calls ++
        [.SDL_Init, .SDL_CreateWindow title width height, .SDL_CreateRenderer] }

/-- `platform_graphics_shutdown` from `sdl3_impl.c`. -/
def platform_graphics_shutdown (s : SDL3State) : SDL3State :=
  let s1 := if s.renderer then
      { s with renderer := false, calls := s.calls ++ [.SDL_DestroyRenderer] }
    else s
  let s2 := if s1.window then
      { s1 with window := false, calls := s1.calls ++ [.SDL_DestroyWindow] }
    else s1
  { s2 with calls := s2.calls ++ [.SDL_Quit] }

/-- `platform_graphics_should_close` from `sdl3_impl.c`: drains the pending
event queue, sets the static `should_close` flag on `SDL_EVENT_QUIT` or an
`SDLK_ESCAPE` key-down, and returns the flag. -/
def platform_graphics_should_close (s : SDL3State) : Bool × SDL3State :=
  let sc := s.should_close || s.pending.any isCloseEvent
  (sc, { s with should_close := sc, pending := [] })

/-- `platform_graphics_begin_frame` from `sdl3_impl.c`: a no-op. -/
def platform_graphics_begin_frame (s : SDL3State) : SDL3State :=
  s

/-- `platform_graphics_end_frame` from `sdl3_impl.c`. -/
def platform_graphics_end_frame (s : SDL3State) : SDL3State :=
  { s with calls := s.calls ++ [.SDL_RenderPresent] }

/-- `platform_graphics_clear` from `sdl3_impl.c`. -/
def platform_graphics_clear (color : GfxColor) (s : SDL3State) : SDL3State :=
  { s with calls := s.calls ++
      [.SDL_SetRenderDrawColor color.r color.g color.b color.a, .SDL_RenderClear] }

/-- `platform_graphics_draw_rectangle` from `sdl3_impl.c`. -/
def platform_graphics_draw_rectangle (rect : GfxRectangle) (color : GfxColor)
    (s : SDL3State) : SDL3State :=
  { s with calls := s.calls ++
      [.SDL_SetRenderDrawColor color.r color.g color.b color.a,
       .SDL_RenderFillRect rect.x rect.y rect.width rect.height] }

/-- `platform_graphics_draw_texture` from `sdl3_impl.c`: a placeholder that
discards all its arguments and does nothing. -/
def platform_graphics_draw_texture (texture_id : Int) (dest : GfxRectangle)
    (tint : GfxColor) (s : SDL3State) : SDL3State :=
  s

/-- `platform_graphics_draw_text` from `sdl3_impl.c` (the `size` argument is
unused by the C code). -/
def platform_graphics_draw_text (text : String) (x y size : Int) (color : GfxColor)
    (s : SDL3State) : SDL3State :=
  { s with calls := s.calls ++
      [.SDL_SetRenderDrawColor color.r color.g color.b color.a,
       .SDL_RenderDebugText x y text] }

/-- `platform_graphics_load_texture` from `sdl3_impl.c`: always returns the
dummy texture id `1`, ignoring the filename. -/
def platform_graphics_load_texture (filename : String) (s : SDL3State) :
    Int × SDL3State :=
  (1, s)

/-- `platform_graphics_unload_texture` from `sdl3_impl.c`: a no-op. -/
def platform_graphics_unload_texture (texture_id : Int) (s : SDL3State) : SDL3State :=
  s

end SDL3

/-! ## The platform interface (`extern` declarations in `src/engine/graphics.c`)

`graphics.c` forward-declares eleven `platform_graphics_*` functions and the
linker binds exactly one backend's definitions.  The interface is modelled as a
record of functions over an abstract backend state `σ`. -/

/-- The eleven `platform_graphics_*` functions that `graphics.c` declares
`extern`, over an abstract backend state `σ`. -/
structure PlatformImpl (σ : Type) where
  init : Int → Int → String → σ → σ
  shutdown : σ → σ
  should_close : σ → Bool × σ
  begin_frame : σ → σ
  end_frame : σ → σ
  clear : GfxColor → σ → σ
  draw_rectangle : GfxRectangle → GfxColor → σ → σ
  draw_texture : Int → GfxRectangle → GfxColor → σ → σ
  draw_text : String → Int → Int → Int → GfxColor → σ → σ
  load_texture : String → σ → Int × σ
  unload_texture : Int → σ → σ

/-- The Raylib backend packaged as the platform interface. -/
def raylibImpl : PlatformImpl RaylibState where
  init := Raylib.platform_graphics_init
  shutdown := Raylib.platform_graphics_shutdown
  should_close := Raylib.platform_graphics_should_close
  begin_frame := Raylib.platform_graphics_begin_frame
  end_frame := Raylib.platform_graphics_end_frame
  clear := Raylib.platform_graphics_clear
  draw_rectangle := Raylib.platform_graphics_draw_rectangle
  draw_texture := Raylib.platform_graphics_draw_texture
  draw_text := Raylib.platform_graphics_draw_text
  load_texture := Raylib.platform_graphics_load_texture
  unload_texture := Raylib.platform_graphics_unload_texture

/-- The SDL3 backend packaged as the platform interface. -/
def sdl3Impl : PlatformImpl SDL3State where
  init := SDL3.platform_graphics_init
  shutdown := SDL3.platform_graphics_shutdown
  should_close := SDL3.platform_graphics_should_close
  begin_frame := SDL3.platform_graphics_begin_frame
  end_frame := SDL3.platform_graphics_end_frame
  clear := SDL3.platform_graphics_clear
  draw_rectangle := SDL3.platform_graphics_draw_rectangle
  draw_texture := SDL3.platform_graphics_draw_texture
  draw_text := SDL3.platform_graphics_draw_text
  load_texture := SDL3.platform_graphics_load_texture
  unload_texture := SDL3.platform_graphics_unload_texture

/-! ## Compile-time backend selection (`build.zig` and the `#ifdef` guards)

`build.zig` defines exactly one of the macros `GRAPHICS_BACKEND_RAYLIB` /
`GRAPHICS_BACKEND_SDL3` and compiles exactly one backend file; each backend
file is wrapped whole in the corresponding `#ifdef`. -/

/-- The `-Dgraphics=` build option of `build.zig`. -/
inductive BuildBackend where
  | raylib
  | sdl3
deriving DecidableEq

/-- Whether `build.zig` defines `GRAPHICS_BACKEND_RAYLIB` for a given build
option. -/
def macroGRAPHICS_BACKEND_RAYLIB : BuildBackend → Bool
  | .raylib => true
  | .sdl3 => false

/-- Whether `build.zig` defines `GRAPHICS_BACKEND_SDL3` for a given build
option. -/
def macroGRAPHICS_BACKEND_SDL3 : BuildBackend → Bool
  | .raylib => false
  | .sdl3 => true

/-- The entire content of `raylib_impl.c` sits inside
`#ifdef GRAPHICS_BACKEND_RAYLIB`: the translation unit contributes the Raylib
implementation exactly when the macro is defined. -/
def raylib_impl_unit (raylibDefined : Bool) : Option (PlatformImpl RaylibState) :=
  if raylibDefined then some raylibImpl else none

/-- The entire content of `sdl3_impl.c` sits inside
`#ifdef GRAPHICS_BACKEND_SDL3`: the translation unit contributes the SDL3
implementation exactly when the macro is defined. -/
def sdl3_impl_unit (sdl3Defined : Bool) : Option (PlatformImpl SDL3State) :=
  if sdl3Defined then some sdl3Impl else none

/-! ## The graphics layer (`src/engine/graphics.c`) -/

/-- State visible to `graphics.c`: its static `current_backend` variable plus
the backend's own state. -/
structure GraphicsState (σ : Type) where
  current_backend : GraphicsBackend
  platform : σ

/-- The state of `graphics.c` at program start: the static initialiser
`current_backend = GRAPHICS_RAYLIB`, together with an initial backend state. -/
def initialGraphicsState {σ : Type} (s0 : σ) : GraphicsState σ :=
  ⟨.GRAPHICS_RAYLIB, s0⟩

/-- `graphics_init` from `graphics.c`: stores the backend argument into
`current_backend` and delegates to `platform_graphics_init`. -/
def graphics_init {σ : Type} (P : PlatformImpl σ) (width height : Int)
    (title : String) (backend : GraphicsBackend) (s : GraphicsState σ) :
    GraphicsState σ :=
  { current_backend := backend, platform := P.init width height title s.platform }

/-- `graphics_shutdown` from `graphics.c`. -/
def graphics_shutdown {σ : Type} (P : PlatformImpl σ) (s : GraphicsState σ) :
    GraphicsState σ :=
  { s with platform := P.shutdown s.platform }

/-- `graphics_should_close` from `graphics.c`. -/
def graphics_should_close {σ : Type} (P : PlatformImpl σ) (s : GraphicsState σ) :
    Bool × GraphicsState σ :=
  ((P.should_close s.platform).1, { s with platform := (P.should_close s.platform).2 })

/-- `graphics_begin_frame` from `graphics.c`. -/
def graphics_begin_frame {σ : Type} (P : PlatformImpl σ) (s : GraphicsState σ) :
    GraphicsState σ :=
  { s with platform := P.begin_frame s.platform }

/-- `graphics_end_frame` from `graphics.c`. -/
def graphics_end_frame {σ : Type} (P : PlatformImpl σ) (s : GraphicsState σ) :
    GraphicsState σ :=
  { s with platform := P.end_frame s.platform }

/-- `graphics_clear` from `graphics.c`. -/
def graphics_clear {σ : Type} (P : PlatformImpl σ) (color : GfxColor)
    (s : GraphicsState σ) : GraphicsState σ :=
  { s with platform := P.clear color s.platform }

/-- `graphics_draw_rectangle` from `graphics.c`. -/
def graphics_draw_rectangle {σ : Type} (P : PlatformImpl σ) (rect : GfxRectangle)
    (color : GfxColor) (s : GraphicsState σ) : GraphicsState σ :=
  { s with platform := P.draw_rectangle rect color s.platform }

/-- `graphics_draw_texture` from `graphics.c`. -/
def graphics_draw_texture {σ : Type} (P : PlatformImpl σ) (texture_id : Int)
    (dest : GfxRectangle) (tint : GfxColor) (s : GraphicsState σ) : GraphicsState σ :=
  { s with platform := P.draw_texture texture_id dest tint s.platform }

/-- `graphics_draw_text` from `graphics.c`. -/
def graphics_draw_text {σ : Type} (P : PlatformImpl σ) (text : String)
    (x y size : Int) (color : GfxColor) (s : GraphicsState σ) : GraphicsState σ :=
  { s with platform := P.draw_text text x y size color s.platform }

/-- `graphics_load_texture` from `graphics.c`. -/
def graphics_load_texture {σ : Type} (P : PlatformImpl σ) (filename : String)
    (s : GraphicsState σ) : Int × GraphicsState σ :=
  ((P.load_texture filename s.platform).1,
   { s with platform := (P.load_texture filename s.platform).2 })

/-- `graphics_unload_texture` from `graphics.c`. -/
def graphics_unload_texture {σ : Type} (P : PlatformImpl σ) (texture_id : Int)
    (s : GraphicsState σ) : GraphicsState σ :=
  { s with platform := P.unload_texture texture_id s.platform }

/-! ## Call sequences against the public graphics interface -/

/-- One call against the public interface of `graphics.h`, with its
arguments. -/
inductive GCall where
  | init (width height : Int) (title : String) (backend : GraphicsBackend)
  | shutdown
  | should_close
  | begin_frame
  | end_frame
  | clear (color : GfxColor)
  | draw_rectangle (rect : GfxRectangle) (color : GfxColor)
  | draw_texture (texture_id : Int) (dest : GfxRectangle) (tint : GfxColor)
  | draw_text (text : String) (x y size : Int) (color : GfxColor)
  | load_texture (filename : String)
  | unload_texture (texture_id : Int)
deriving DecidableEq

/-- The value returned by one public graphics call. -/
inductive GOut where
  | unit
  | bool (b : Bool)
  | int (i : Int)
deriving DecidableEq

/-- Execute one public graphics call against the layer of `graphics.c`. -/
def applyGCall {σ : Type} (P : PlatformImpl σ) :
    GCall → GraphicsState σ → GOut × GraphicsState σ
  | .init w h t b, s => (.unit, graphics_init P w h t b s)
  | .shutdown, s => (.unit, graphics_shutdown P s)
  | .should_close, s =>
      (.bool (graphics_should_close P s).1, (graphics_should_close P s).2)
  | .begin_frame, s => (.unit, graphics_begin_frame P s)
  | .end_frame, s => (.unit, graphics_end_frame P s)
  | .clear c, s => (.unit, graphics_clear P c s)
  | .draw_rectangle r c, s => (.unit, graphics_draw_rectangle P r c s)
  | .draw_texture id d t, s => (.unit, graphics_draw_texture P id d t s)
  | .draw_text t x y sz c, s => (.unit, graphics_draw_text P t x y sz c s)
  | .load_texture f, s =>
      (.int (graphics_load_texture P f s).1, (graphics_load_texture P f s).2)
  | .unload_texture id, s => (.unit, graphics_unload_texture P id s)

/-- Execute a sequence of public graphics calls, collecting the returned
values. -/
def runGCalls {σ : Type} (P : PlatformImpl σ) :
    List GCall → GraphicsState σ → List GOut × GraphicsState σ
  | [], s => ([], s)
  | c :: cs, s =>
      let r := applyGCall P c s
      let rest := runGCalls P cs r.2
      (r.1 :: rest.1, rest.2)

/-! ## The entry point (`src/main.c`)

`main` initialises the backend chosen by the preprocessor macro, then loops
until `graphics_should_close` returns true, issuing a fixed sequence of draw
calls per iteration, and finally shuts down.  The loop carries no state of its
own; the trace of public graphics calls is a function of the sequence of
`graphics_should_close` results alone. -/

/-- The body of one iteration of main's `while` loop, as the sequence of public
graphics calls it issues. -/
def mainFrame : List GCall :=
  [.begin_frame,
   .clear ⟨20, 30, 80, 255⟩,
   .draw_rectangle ⟨100, 100, 50, 50⟩ COLOR_RED,
   .draw_rectangle ⟨200, 150, 80, 30⟩ COLOR_GREEN,
   .draw_rectangle ⟨350, 200, 100, 100⟩ COLOR_BLUE,
   .draw_text "Infinite Runner - Press ESC to close" 10 10 20 COLOR_WHITE,
   .draw_text "WASD to test (placeholder)" 10 40 16 COLOR_GRAY,
   .end_frame]

/-- The trace of public graphics calls issued by main's `while` loop, as a
function of the successive results of `graphics_should_close` (the loop is
exited on the first `true`; an exhausted oracle truncates the trace). -/
def mainLoopTrace : List Bool → List GCall
  | [] => []
  | true :: _ => [.should_close]
  | false :: rest => .should_close :: (mainFrame ++ mainLoopTrace rest)

/-- The complete trace of public graphics calls issued by `main`, for a build
with the given backend macro defined and a given oracle of
`graphics_should_close` results ending in `true`. -/
def mainCalls (backend : BuildBackend) (oracle : List Bool) : List GCall :=
  (match backend with
   | .raylib => [.init 800 450 "Infinite Runner - Raylib Backend" .GRAPHICS_RAYLIB]
   | .sdl3 => [.init 800 450 "Infinite Runner - SDL3 Backend" .GRAPHICS_SDL3])
  ++ mainLoopTrace oracle ++ [.shutdown]

/-! ## Operation sequences against the SDL3 backend (for the should-close flag) -/

/-- One operation affecting the SDL3 backend state: any of the eleven platform
functions, or the arrival of an event in the SDL event queue. -/
inductive SdlOp where
  | op_init (width height : Int) (title : String)
  | op_shutdown
  | op_should_close
  | op_begin_frame
  | op_end_frame
  | op_clear (color : GfxColor)
  | op_draw_rectangle (rect : GfxRectangle) (color : GfxColor)
  | op_draw_texture (texture_id : Int) (dest : GfxRectangle) (tint : GfxColor)
  | op_draw_text (text : String) (x y size : Int) (color : GfxColor)
  | op_load_texture (filename : String)
  | op_unload_texture (texture_id : Int)
  | op_event (e : SDLEvent)
deriving DecidableEq

/-- Apply one SDL3 backend operation to the backend state. -/
def applySdlOp : SdlOp → SDL3State → SDL3State
  | .op_init w h t, s => SDL3.platform_graphics_init w h t s
  | .op_shutdown, s => SDL3.platform_graphics_shutdown s
  | .op_should_close, s => (SDL3.platform_graphics_should_close s).2
  | .op_begin_frame, s => SDL3.platform_graphics_begin_frame s
  | .op_end_frame, s => SDL3.platform_graphics_end_frame s
  | .op_clear c, s => SDL3.platform_graphics_clear c s
  | .op_draw_rectangle r c, s => SDL3.platform_graphics_draw_rectangle r c s
  | .op_draw_texture id d t, s => SDL3.platform_graphics_draw_texture id d t s
  | .op_draw_text t x y sz c, s => SDL3.platform_graphics_draw_text t x y sz c s
  | .op_load_texture f, s => (SDL3.platform_graphics_load_texture f s).2
  | .op_unload_texture id, s => SDL3.platform_graphics_unload_texture id s
  | .op_event e, s => { s with pending := s.pending ++ [e] }

/-- Apply a sequence of SDL3 backend operations in order. -/
def applySdlOps (ops : List SdlOp) (s : SDL3State) : SDL3State :=
  ops.foldl (fun acc op => applySdlOp op acc) s

/-! ## Simulation core, modelled from the specification

The repository contains no simulation-core code; §3–§4 of the design document
specify it.  Every definition in this section is modelled from that text.
`float` quantities are idealised as `ℚ`. -/

/-- Modelled from the spec: the input snapshot supplied once per tick (§6). -/
structure Input where
  jumpPressedThisTick : Bool
  crouchHeld : Bool
  restartPressedThisTick : Bool
deriving DecidableEq

/-- Modelled from the spec: a 2D vector (§3, `Vector2`). -/
structure Vec2 where
  x : ℚ
  y : ℚ
deriving DecidableEq

/-- Modelled from the spec: an axis-aligned box (§3, `AABB`). -/
structure AABB where
  x : ℚ
  y : ℚ
  width : ℚ
  height : ℚ
deriving DecidableEq

/-- Modelled from the spec: the `PlayerState` enum (§3). -/
inductive PlayerState where
  | RUNNING
  | JUMPING
  | CROUCHING
  | DEAD
deriving DecidableEq

/-- Modelled from the spec: a kinematic body advanced by the physics
integrator (§4.1). -/
structure Body where
  position : Vec2
  velocity : Vec2
  isGrounded : Bool
deriving DecidableEq

/-- Modelled from the spec: the `Player` aggregate (§3) — a kinematic body
plus the action state. -/
structure Player where
  body : Body
  state : PlayerState
deriving DecidableEq

/-- Modelled from the spec: gravity, a positive magnitude of 800 units/s²
applied as downward, i.e. increasing y (§4.1). -/
def GRAVITY : ℚ := 800

/-- Modelled from the spec: the upward jump impulse `velocity.y = -350`
(§4.2 rule 2). -/
def JUMP_VELOCITY : ℚ := -350

/-- Modelled from the spec: the mandatory maximum integration step of
1/30 s to which dt is clamped (§4.1). -/
def MAX_DT : ℚ := 1 / 30

/-- Modelled from the spec (§4.1): `integrate(body, dt, gravity) -> body'`.
dt is clamped to `MAX_DT` first; then `velocity.y += gravity * dt`, then
`position += velocity * dt`; finally ground contact resolution against
`groundY`. -/
def integrate (b : Body) (dt gravity groundY : ℚ) : Body :=
  let dtc := min dt MAX_DT
  let vy := b.velocity.y + gravity * dtc
  let px := b.position.x + b.velocity.x * dtc
  let py := b.position.y + vy * dtc
  if groundY ≤ py then
    { position := ⟨px, groundY⟩, velocity := ⟨b.velocity.x, 0⟩, isGrounded := true }
  else
    { position := ⟨px, py⟩, velocity := ⟨b.velocity.x, vy⟩, isGrounded := false }

/-- Modelled from the spec (§4.2 rules 2–4): the input-driven transitions of
the player state machine, evaluated in the documented precedence order —
jump request, then crouch hold, then crouch release. -/
def applyInput (p : Player) (inp : Input) : Player :=
  if inp.jumpPressedThisTick && p.body.isGrounded && !(p.state == PlayerState.CROUCHING) then
    { body := ⟨p.body.position, ⟨p.body.velocity.x, JUMP_VELOCITY⟩, false⟩,
      state := .JUMPING }
  else if inp.crouchHeld && p.body.isGrounded && !(p.state == PlayerState.JUMPING) then
    { p with state := .CROUCHING }
  else if !inp.crouchHeld && (p.state == PlayerState.CROUCHING) then
    { p with state := .RUNNING }
  else p

/-- Modelled from the spec (§4.2): `update(player, input, dt, groundY)`.
Rule 1 freezes a DEAD player; rules 2–4 are `applyInput`; physics integration
follows; rule 5 resolves landing to RUNNING when crouch is not held. -/
def playerUpdate (p : Player) (inp : Input) (dt groundY : ℚ) : Player :=
  if p.state = PlayerState.DEAD then p
  else
    let p1 := applyInput p inp
    let b2 := integrate p1.body dt GRAVITY groundY
    if !p1.body.isGrounded && b2.isGrounded && !inp.crouchHeld then
      { body := b2, state := .RUNNING }
    else
      { body := b2, state := p1.state }

/-- Modelled from the spec (§4.2 rule 6 and §4.5): the external collision
signal forcing `state = DEAD`. -/
def forceDead (p : Player) : Player :=
  { p with state := .DEAD }

/-- Modelled from the spec (§4.6): the player at the start of a run —
grounded on the ground line, zero velocity, RUNNING. -/
def initialPlayer (groundY : ℚ) : Player :=
  { body := { position := ⟨0, groundY⟩, velocity := ⟨0, 0⟩, isGrounded := true },
    state := .RUNNING }

/-- Modelled from the spec: the set of player states reachable from the start
of a run under ticks (with nonnegative dt), external collision signals, and
explicit resets. -/
inductive ReachablePlayer (groundY : ℚ) : Player → Prop where
  | start : ReachablePlayer groundY (initialPlayer groundY)
  | tick (p : Player) (inp : Input) (dt : ℚ) :
      ReachablePlayer groundY p → 0 ≤ dt →
      ReachablePlayer groundY (playerUpdate p inp dt groundY)
  | collide (p : Player) :
      ReachablePlayer groundY p → ReachablePlayer groundY (forceDead p)
  | reset (p : Player) :
      ReachablePlayer groundY p → ReachablePlayer groundY (initialPlayer groundY)

/-- Modelled from the spec (§4.3): `speedMultiplier(t) =
min(1 + 0.15 * floor(t / 5), 2.5)`. -/
def speedMultiplier (t : ℚ) : ℚ :=
  min (1 + (3 / 20) * ((⌊t / 5⌋ : ℤ) : ℚ)) (5 / 2)

/-- Modelled from the spec (§4.3): `spawnInterval(t)` starts at 4.0 s and
decreases by the same 5-second tier boundaries toward a floor of 2.5 s. -/
def spawnInterval (t : ℚ) : ℚ :=
  max (4 - (1 / 2) * ((⌊t / 5⌋ : ℤ) : ℚ)) (5 / 2)

/-- Modelled from the spec (§4.3): the ordinal pattern-complexity tier. -/
inductive Complexity where
  | SINGLE
  | MIXED
  | PAIRS
  | COMPLEX
deriving DecidableEq

/-- Modelled from the spec (§4.3): `patternComplexity(t)`, keyed to the same
5-second tier boundaries. -/
def patternComplexity (t : ℚ) : Complexity :=
  let tier := ⌊t / 5⌋
  if tier ≤ 0 then .SINGLE
  else if tier = 1 then .MIXED
  else if tier = 2 then .PAIRS
  else .COMPLEX

/-- Modelled from the spec (§3): the `ObstacleType` enum. -/
inductive ObstacleType where
  | HIGH
  | LOW
  | GAP
deriving DecidableEq

/-- Modelled from the spec (§3): a live obstacle. -/
structure Obstacle where
  id : ℕ
  position : Vec2
  bounds : AABB
  type : ObstacleType
deriving DecidableEq

/-- Modelled from the spec (§4.4): the seeded pseudo-random source, as a
linear congruential generator on a 32-bit state. -/
def lcgNext (s : ℕ) : ℕ :=
  (1664525 * s + 1013904223) % 4294967296

/-- Modelled from the spec (§4.4): draw a number below `n` from the seeded
source, returning the draw and the advanced state. -/
def randBelow (s n : ℕ) : ℕ × ℕ :=
  let s2 := lcgNext s
  (s2 % n, s2)

/-- Modelled from the spec (§4.4): weighted random draw of an obstacle type
over {HIGH, LOW, GAP}. -/
def drawObstacleType (s : ℕ) : ObstacleType × ℕ :=
  let r := randBelow s 100
  if r.1 < 40 then (.HIGH, r.2)
  else if r.1 < 80 then (.LOW, r.2)
  else (.GAP, r.2)

/-- Modelled from the spec: the player's constant base horizontal speed
(200 px/s in the design document). -/
def BASE_SPEED : ℚ := 200

/-- Modelled from the spec (§4.4): the camera's trailing culling boundary
margin. -/
def CULL_MARGIN : ℚ := 100

/-- Modelled from the spec (§4.4): the camera x position of the fixed
reference frame in which obstacles move left. -/
def CAMERA_X : ℚ := 0

/-- Modelled from the spec: the fixed horizontal screen position of the
player. -/
def PLAYER_X : ℚ := 100

/-- Modelled from the spec (§4.6): the ground line. -/
def GROUND_Y : ℚ := 400

/-- Modelled from the spec (§8, Scenario B and §4.2): the minimum safe gap,
computed from current speed and the player's maximum jump arc
(time of flight `2*350/800`). -/
def minSafeGap (mult : ℚ) : ℚ :=
  BASE_SPEED * mult * (2 * 350 / 800)

/-- Modelled from the spec (§4.4): dimensions of an obstacle of a given type
at a given spawn x. -/
def obstacleBounds (ty : ObstacleType) (x : ℚ) : AABB :=
  match ty with
  | .HIGH => ⟨x, 360, 30, 40⟩
  | .LOW => ⟨x, 300, 40, 40⟩
  | .GAP => ⟨x, 400, 80, 20⟩

/-- Modelled from the spec (§4.4): the number of obstacles emitted by one
spawn event for a complexity tier (SINGLE=1, MIXED=1–2, PAIRS=2,
COMPLEX=2–3), random counts drawn from the seeded source. -/
def complexityCount (c : Complexity) (s : ℕ) : ℕ × ℕ :=
  match c with
  | .SINGLE => (1, s)
  | .MIXED => let r := randBelow s 2; (1 + r.1, r.2)
  | .PAIRS => (2, s)
  | .COMPLEX => let r := randBelow s 2; (2 + r.1, r.2)

/-- Modelled from the spec (§3): the per-run state owned by the Game
Orchestrator, extended with the log of all obstacles spawned this run (the
obstacle sequence of §8's determinism property). -/
structure RunState where
  elapsedSeconds : ℚ
  score : ℕ
  obstacles : List Obstacle
  nextObstacleId : ℕ
  spawnTimer : ℚ
  rng : ℕ
  spawnLog : List Obstacle
deriving DecidableEq

/-- Modelled from the spec (§4.4): emit `count` obstacles for one spawn
event, spaced by `gap` starting at `startX`, types drawn from the seeded
source; returns the new obstacles, the next fresh id and the advanced rng. -/
def spawnObstacles : ℕ → ℚ → ℚ → ℕ → ℕ → List Obstacle × ℕ × ℕ
  | 0, _, _, nextId, s => ([], nextId, s)
  | n + 1, startX, gap, nextId, s =>
      let d := drawObstacleType s
      let bounds := obstacleBounds d.1 startX
      let o : Obstacle := { id := nextId, position := ⟨startX, bounds.y⟩,
                            bounds := bounds, type := d.1 }
      let rest := spawnObstacles n (startX + gap) gap (nextId + 1) d.2
      (o :: rest.1, rest.2.1, rest.2.2)

/-- Modelled from the spec (§4.4): the x coordinate of the right edge of the
rightmost live obstacle, or the player's position when none are live. -/
def rightmostEdge (obs : List Obstacle) : ℚ :=
  obs.foldl (fun acc o => max acc (o.position.x + o.bounds.width)) PLAYER_X

/-- Modelled from the spec (§4.4): `advance(runState, dt, difficulty,
cameraX)` — horizontal advance of every live obstacle, retirement past the
culling boundary, and spawn scheduling with overshoot carry-over. -/
def advanceRun (rs : RunState) (dtc : ℚ) : RunState :=
  let t2 := rs.elapsedSeconds + dtc
  let mult := speedMultiplier t2
  let dx := BASE_SPEED * mult * dtc
  let moved := rs.obstacles.map (fun o =>
    { o with position := ⟨o.position.x - dx, o.position.y⟩,
             bounds := { o.bounds with x := o.bounds.x - dx } })
  let live := moved.filter (fun o =>
    !(o.position.x + o.bounds.width < CAMERA_X - CULL_MARGIN))
  let timer := rs.spawnTimer + dtc
  let interval := spawnInterval t2
  if interval ≤ timer then
    let count := complexityCount (patternComplexity t2) rs.rng
    let gap := minSafeGap mult
    let startX := rightmostEdge live + gap
    let spawned := spawnObstacles count.1 startX gap rs.nextObstacleId count.2
    { elapsedSeconds := t2,
      score := rs.score,
      obstacles := live ++ spawned.1,
      nextObstacleId := spawned.2.1,
      spawnTimer := timer - interval,
      rng := spawned.2.2,
      spawnLog := rs.spawnLog ++ spawned.1 }
  else
    { rs with elapsedSeconds := t2, obstacles := live, spawnTimer := timer }

/-- Modelled from the spec (§4.5): the standard AABB overlap test. -/
def aabbOverlap (a b : AABB) : Bool :=
  (a.x < b.x + b.width) && (a.x + a.width > b.x) &&
  (a.y < b.y + b.height) && (a.y + a.height > b.y)

/-- Modelled from the spec (§4.2): the player's collision hitbox — the
visual box (standing 40×60, crouching half height) shrunk by the 80%
forgiveness margin, anchored to the ground line. -/
def playerHitbox (p : Player) : AABB :=
  let h : ℚ := if p.state = PlayerState.CROUCHING then 30 else 60
  let w : ℚ := 40
  let hw := w * (4 / 5)
  let hh := h * (4 / 5)
  ⟨PLAYER_X + (w - hw) / 2, p.body.position.y - h + (h - hh) / 2, hw, hh⟩

/-- Modelled from the spec (§4.5): `check(player, obstacles)` — first
overlap in obstacle sequence order, as the hit obstacle's id. -/
def collisionCheck (p : Player) (obs : List Obstacle) : Option ℕ :=
  (obs.find? (fun o => aabbOverlap (playerHitbox p) o.bounds)).map (fun o => o.id)

/-- Modelled from the spec (§4.6): the orchestrator's top-level state. -/
inductive GameMode where
  | MENU
  | PLAYING
  | GAME_OVER
deriving DecidableEq

/-- Modelled from the spec (§4.6): the aggregate owned by the Game
Orchestrator, extended with the recorded collision outcome (hit obstacle id
and the elapsedSeconds at which it occurred). -/
structure GameState where
  mode : GameMode
  player : Player
  run : RunState
  lastHit : Option (ℕ × ℚ)
deriving DecidableEq

/-- Modelled from the spec (§4.6): a fresh `RunState` with a given rng
state. -/
def initialRunState (seed : ℕ) : RunState :=
  { elapsedSeconds := 0, score := 0, obstacles := [], nextObstacleId := 0,
    spawnTimer := 0, rng := seed, spawnLog := [] }

/-- Modelled from the spec (§4.6): the initial orchestrator state for a given
PRNG seed. -/
def initialGame (seed : ℕ) : GameState :=
  { mode := .MENU, player := initialPlayer GROUND_Y,
    run := initialRunState seed, lastHit := none }

/-- Modelled from the spec (§2, §4.6): one tick of the orchestrator —
`advance(dt, input)`.  In PLAYING it runs player physics, difficulty lookup,
obstacle advance/spawn/retire and the collision test in the documented order;
MENU and GAME_OVER react to the start/restart input. -/
def advance (g : GameState) (dt : ℚ) (inp : Input) : GameState :=
  match g.mode with
  | .MENU =>
      if inp.restartPressedThisTick then
        { g with mode := .PLAYING, player := initialPlayer GROUND_Y,
                 run := initialRunState g.run.rng }
      else g
  | .GAME_OVER =>
      if inp.restartPressedThisTick then
        { g with mode := .PLAYING, player := initialPlayer GROUND_Y,
                 run := initialRunState g.run.rng }
      else g
  | .PLAYING =>
      let dtc := min dt MAX_DT
      let p2 := playerUpdate g.player inp dtc GROUND_Y
      let rs2 := advanceRun g.run dtc
      match collisionCheck p2 rs2.obstacles with
      | some oid =>
          { mode := .GAME_OVER, player := forceDead p2,
            run := { rs2 with score := rs2.elapsedSeconds.floor.toNat },
            lastHit := some (oid, rs2.elapsedSeconds) }
      | none =>
          { mode := .PLAYING, player := p2, run := rs2, lastHit := g.lastHit }

/-- Modelled from the spec (§8): run the whole simulation from a seed over a
finite sequence of (dt, input) ticks. -/
def runGame (seed : ℕ) (ticks : List (ℚ × Input)) : GameState :=
  ticks.foldl (fun g ti => advance g ti.1 ti.2) (initialGame seed)

/-! ## Helper lemmas -/

/-- Outputs and platform effects of one public graphics call depend only on
the platform component of the state, never on `current_backend`. -/
theorem applyGCall_platform_congr {σ : Type} (P : PlatformImpl σ) (c : GCall)
    (s1 s2 : GraphicsState σ) (h : s1.platform = s2.platform) :
    (applyGCall P c s1).1 = (applyGCall P c s2).1 ∧
    (applyGCall P c s1).2.platform = (applyGCall P c s2).2.platform := by
  cases c <;>
    simp [applyGCall, graphics_init, graphics_shutdown, graphics_should_close,
      graphics_begin_frame, graphics_end_frame, graphics_clear,
      graphics_draw_rectangle, graphics_draw_texture, graphics_draw_text,
      graphics_load_texture, graphics_unload_texture, h]

/-- Outputs and platform effects of a sequence of public graphics calls depend
only on the platform component of the starting state. -/
theorem runGCalls_platform_congr {σ : Type} (P : PlatformImpl σ) (calls : List GCall) :
    ∀ s1 s2 : GraphicsState σ, s1.platform = s2.platform →
    (runGCalls P calls s1).1 = (runGCalls P calls s2).1 ∧
    (runGCalls P calls s1).2.platform = (runGCalls P calls s2).2.platform := by
  induction calls with
  | nil => exact fun s1 s2 h => ⟨rfl, h⟩
  | cons c cs ih =>
      intro s1 s2 h
      have hc := applyGCall_platform_congr P c s1 s2 h
      have hr := ih (applyGCall P c s1).2 (applyGCall P c s2).2 hc.2
      exact ⟨by simp [runGCalls, hc.1, hr.1], by simp [runGCalls, hr.2]⟩

/-- No SDL3 backend operation ever clears the `should_close` flag. -/
theorem applySdlOp_preserves_should_close (op : SdlOp) (s : SDL3State)
    (h : s.should_close = true) : (applySdlOp op s).should_close = true := by
  cases op with
  | op_init w h2 t =>
      simp only [applySdlOp, SDL3.platform_graphics_init]
      split_ifs <;> simp [h]
  | op_shutdown =>
      simp only [applySdlOp, SDL3.platform_graphics_shutdown]
      split_ifs <;> simp [h]
  | op_should_close =>
      simp [applySdlOp, SDL3.platform_graphics_should_close, h]
  | op_begin_frame => simp [applySdlOp, SDL3.platform_graphics_begin_frame, h]
  | op_end_frame => simp [applySdlOp, SDL3.platform_graphics_end_frame, h]
  | op_clear c => simp [applySdlOp, SDL3.platform_graphics_clear, h]
  | op_draw_rectangle r c => simp [applySdlOp, SDL3.platform_graphics_draw_rectangle, h]
  | op_draw_texture id d t => simp [applySdlOp, SDL3.platform_graphics_draw_texture, h]
  | op_draw_text t x y sz c => simp [applySdlOp, SDL3.platform_graphics_draw_text, h]
  | op_load_texture f => simp [applySdlOp, SDL3.platform_graphics_load_texture, h]
  | op_unload_texture id => simp [applySdlOp, SDL3.platform_graphics_unload_texture, h]
  | op_event e => simp [applySdlOp, h]

/-- The `should_close` flag stays set across any sequence of SDL3 backend
operations. -/
theorem applySdlOps_preserves_should_close (ops : List SdlOp) :
    ∀ s : SDL3State, s.should_close = true → (applySdlOps ops s).should_close = true := by
  induction ops with
  | nil => exact fun s h => h
  | cons op ops ih =>
      intro s h
      exact ih (applySdlOp op s) (applySdlOp_preserves_should_close op s h)

/-! ## Claim theorems -/

/-- C1: every public graphics operation of `graphics.c` returns exactly the
result of the corresponding `platform_graphics_*` function applied to the
same arguments on the current backend state, and the bound platform
implementation is selected at compile time by the `GRAPHICS_BACKEND_RAYLIB`
and `GRAPHICS_BACKEND_SDL3` macros, each backend file being entirely
conditionally compiled. -/
theorem graphics_layer_refines_platform {σ : Type} (P : PlatformImpl σ)
    (width height x y size texture_id : Int) (title text filename : String)
    (backend : GraphicsBackend) (rect dest : GfxRectangle) (color tint : GfxColor)
    (s : GraphicsState σ) :
    (graphics_init P width height title backend s).platform
        = P.init width height title s.platform
  ∧ (graphics_shutdown P s).platform = P.shutdown s.platform
  ∧ (graphics_should_close P s).1 = (P.should_close s.platform).1
  ∧ (graphics_should_close P s).2.platform = (P.should_close s.platform).2
  ∧ (graphics_begin_frame P s).platform = P.begin_frame s.platform
  ∧ (graphics_end_frame P s).platform = P.end_frame s.platform
  ∧ (graphics_clear P color s).platform = P.clear color s.platform
  ∧ (graphics_draw_rectangle P rect color s).platform
        = P.draw_rectangle rect color s.platform
  ∧ (graphics_draw_texture P texture_id dest tint s).platform
        = P.draw_texture texture_id dest tint s.platform
  ∧ (graphics_draw_text P text x y size color s).platform
        = P.draw_text text x y size color s.platform
  ∧ (graphics_load_texture P filename s).1 = (P.load_texture filename s.platform).1
  ∧ (graphics_load_texture P filename s).2.platform
        = (P.load_texture filename s.platform).2
  ∧ (graphics_unload_texture P texture_id s).platform
        = P.unload_texture texture_id s.platform
  ∧ raylib_impl_unit (macroGRAPHICS_BACKEND_RAYLIB .raylib) = some raylibImpl
  ∧ raylib_impl_unit (macroGRAPHICS_BACKEND_RAYLIB .sdl3) = none
  ∧ sdl3_impl_unit (macroGRAPHICS_BACKEND_SDL3 .sdl3) = some sdl3Impl
  ∧ sdl3_impl_unit (macroGRAPHICS_BACKEND_SDL3 .raylib) = none :=
  ⟨rfl, rfl, rfl, rfl, rfl, rfl, rfl, rfl, rfl, rfl, rfl, rfl, rfl, rfl, rfl,
   rfl, rfl⟩

/-- C2: main's loop, on every iteration until `graphics_should_close` returns
true, issues exactly the fixed frame: clear to (20,30,80,255), the three fixed
rectangles at (100,100,50,50), (200,150,80,30), (350,200,100,100) in red,
green and blue, and the two fixed text strings; no game state is carried
between iterations, so the trace for n iterations is n copies of the same
fixed frame. -/
theorem main_loop_behavior :
    mainFrame =
      [GCall.begin_frame,
       GCall.clear ⟨20, 30, 80, 255⟩,
       GCall.draw_rectangle ⟨100, 100, 50, 50⟩ ⟨255, 0, 0, 255⟩,
       GCall.draw_rectangle ⟨200, 150, 80, 30⟩ ⟨0, 255, 0, 255⟩,
       GCall.draw_rectangle ⟨350, 200, 100, 100⟩ ⟨0, 0, 255, 255⟩,
       GCall.draw_text "Infinite Runner - Press ESC to close" 10 10 20 ⟨255, 255, 255, 255⟩,
       GCall.draw_text "WASD to test (placeholder)" 10 40 16 ⟨128, 128, 128, 255⟩,
       GCall.end_frame]
  ∧ (∀ n : ℕ, mainLoopTrace (List.replicate n false ++ [true]) =
       (List.replicate n (GCall.should_close :: mainFrame)).flatten ++ [GCall.should_close])
  ∧ (∀ oracle : List Bool, mainCalls .raylib oracle =
       GCall.init 800 450 "Infinite Runner - Raylib Backend" .GRAPHICS_RAYLIB
         :: (mainLoopTrace oracle ++ [GCall.shutdown])) := by
  refine ⟨rfl, ?_, fun oracle => rfl⟩
  intro n
  induction n with
  | zero => rfl
  | succ n ih =>
      simp only [List.replicate_succ, List.cons_append, mainLoopTrace, List.append_eq]
      rw [ih]
      simp [List.append_assoc]

/-- C3: `graphics.c` holds the backend in the global `current_backend`,
statically initialised to `GRAPHICS_RAYLIB` and overwritten by
`graphics_init`; no operation reads it, so for any two backend arguments
passed to `graphics_init` with the same width, height and title, every
subsequent sequence of graphics calls produces identical observable results —
the backend argument is dead. -/
theorem current_backend_is_dead {σ : Type} (P : PlatformImpl σ)
    (width height : Int) (title : String) (b1 b2 : GraphicsBackend) (s0 : σ)
    (calls : List GCall) :
    (initialGraphicsState s0).current_backend = GraphicsBackend.GRAPHICS_RAYLIB
  ∧ (graphics_init P width height title b1 (initialGraphicsState s0)).current_backend = b1
  ∧ (runGCalls P calls (graphics_init P width height title b1 (initialGraphicsState s0))).1
      = (runGCalls P calls (graphics_init P width height title b2 (initialGraphicsState s0))).1
  ∧ (runGCalls P calls (graphics_init P width height title b1 (initialGraphicsState s0))).2.platform
      = (runGCalls P calls (graphics_init P width height title b2 (initialGraphicsState s0))).2.platform := by
  have h := runGCalls_platform_congr P calls
    (graphics_init P width height title b1 (initialGraphicsState s0))
    (graphics_init P width height title b2 (initialGraphicsState s0)) rfl
  exact ⟨rfl, rfl, h.1, h.2⟩

/-- C9: in the SDL3 backend the should-close condition is monotone — once
`platform_graphics_should_close` has returned true, it returns true after any
subsequent sequence of backend operations and event arrivals, because the
static `should_close` flag is set by quit/ESC events and never cleared. -/
theorem sdl3_should_close_monotone (s : SDL3State)
    (h : (SDL3.platform_graphics_should_close s).1 = true) (ops : List SdlOp) :
    (SDL3.platform_graphics_should_close
        (applySdlOps ops (SDL3.platform_graphics_should_close s).2)).1 = true := by
  have h2 : (SDL3.platform_graphics_should_close s).2.should_close = true := by
    simpa [SDL3.platform_graphics_should_close] using h
  have h3 := applySdlOps_preserves_should_close ops _ h2
  simp only [SDL3.platform_graphics_should_close] at h3 ⊢
  simp [h3]

/-- Witness for C9: a state whose flag is already set keeps answering true
after further operations and event arrivals. -/
theorem sdl3_should_close_monotone_witness :
    (SDL3.platform_graphics_should_close
        (applySdlOps [SdlOp.op_begin_frame, SdlOp.op_event SDLEvent.other]
          (SDL3.platform_graphics_should_close
            ⟨false, false, true, [], true, true, true, []⟩).2)).1 = true :=
  sdl3_should_close_monotone ⟨false, false, true, [], true, true, true, []⟩ rfl
    [SdlOp.op_begin_frame, SdlOp.op_event SDLEvent.other]

/-- C10: in both backends `graphics_load_texture` returns the dummy id 1 for
every filename, and `graphics_unload_texture` and `graphics_draw_texture`
have no observable effect for any arguments. -/
theorem texture_ops_are_placeholders (filename : String) (texture_id : Int)
    (dest : GfxRectangle) (tint : GfxColor) (rs : RaylibState) (ss : SDL3State)
    (gr : GraphicsState RaylibState) (gs : GraphicsState SDL3State) :
    Raylib.platform_graphics_load_texture filename rs = (1, rs)
  ∧ SDL3.platform_graphics_load_texture filename ss = (1, ss)
  ∧ Raylib.platform_graphics_unload_texture texture_id rs = rs
  ∧ SDL3.platform_graphics_unload_texture texture_id ss = ss
  ∧ Raylib.platform_graphics_draw_texture texture_id dest tint rs = rs
  ∧ SDL3.platform_graphics_draw_texture texture_id dest tint ss = ss
  ∧ (graphics_load_texture raylibImpl filename gr).1 = 1
  ∧ (graphics_load_texture raylibImpl filename gr).2 = gr
  ∧ (graphics_load_texture sdl3Impl filename gs).1 = 1
  ∧ (graphics_load_texture sdl3Impl filename gs).2 = gs
  ∧ graphics_unload_texture raylibImpl texture_id gr = gr
  ∧ graphics_unload_texture sdl3Impl texture_id gs = gs
  ∧ graphics_draw_texture raylibImpl texture_id dest tint gr = gr
  ∧ graphics_draw_texture sdl3Impl texture_id dest tint gs = gs :=
  ⟨rfl, rfl, rfl, rfl, rfl, rfl, rfl, rfl, rfl, rfl, rfl, rfl, rfl, rfl⟩

/-- C4: `speedMultiplier(t) = min(1 + 0.15 * floor(t / 5), 2.5)`; it is
non-decreasing for t ≥ 0, bounded above by 2.5, and `speedMultiplier(12) =
1.30`. -/
theorem speedMultiplier_spec :
    (∀ t : ℚ, speedMultiplier t = min (1 + (3 / 20) * ((⌊t / 5⌋ : ℤ) : ℚ)) (5 / 2))
  ∧ (∀ t1 t2 : ℚ, 0 ≤ t1 → t1 ≤ t2 → speedMultiplier t1 ≤ speedMultiplier t2)
  ∧ (∀ t : ℚ, 0 ≤ t → speedMultiplier t ≤ 5 / 2)
  ∧ speedMultiplier 12 = 13 / 10 := by
  refine ⟨fun t => rfl, ?_, fun t ht => min_le_right _ _, ?_⟩
  · intro t1 t2 h0 h12
    have hf : (⌊t1 / 5⌋ : ℤ) ≤ ⌊t2 / 5⌋ := Int.floor_le_floor (by linarith)
    have hc : ((⌊t1 / 5⌋ : ℤ) : ℚ) ≤ ((⌊t2 / 5⌋ : ℤ) : ℚ) := by exact_mod_cast hf
    exact min_le_min (by linarith) le_rfl
  · have hfl : (⌊(12 : ℚ) / 5⌋ : ℤ) = 2 := by norm_num [Int.floor_eq_iff]
    rw [speedMultiplier, hfl]
    norm_num

/-- Witness for C4: monotonicity and the bound at concrete times. -/
theorem speedMultiplier_spec_witness :
    speedMultiplier 0 ≤ speedMultiplier 7 ∧ speedMultiplier 7 ≤ 5 / 2 :=
  ⟨speedMultiplier_spec.2.1 0 7 (by norm_num) (by norm_num),
   speedMultiplier_spec.2.2.1 7 (by norm_num)⟩

/-- C5: `integrate` first clamps dt to the mandatory maximum step 1/30 s,
then applies `velocity.y += gravity * dt`, then `position += velocity * dt`,
then resolves ground contact: at or below `groundY` it clamps `position.y`,
zeroes `velocity.y` and sets `isGrounded`, otherwise clears `isGrounded`. -/
theorem integrate_spec (b : Body) (dt gravity groundY : ℚ) :
    (integrate b dt gravity groundY).position.x
        = b.position.x + b.velocity.x * min dt MAX_DT
  ∧ (groundY ≤ b.position.y + (b.velocity.y + gravity * min dt MAX_DT) * min dt MAX_DT →
      (integrate b dt gravity groundY).position.y = groundY ∧
      (integrate b dt gravity groundY).velocity.y = 0 ∧
      (integrate b dt gravity groundY).isGrounded = true)
  ∧ (b.position.y + (b.velocity.y + gravity * min dt MAX_DT) * min dt MAX_DT < groundY →
      (integrate b dt gravity groundY).position.y
          = b.position.y + (b.velocity.y + gravity * min dt MAX_DT) * min dt MAX_DT ∧
      (integrate b dt gravity groundY).velocity.y
          = b.velocity.y + gravity * min dt MAX_DT ∧
      (integrate b dt gravity groundY).isGrounded = false)
  ∧ (MAX_DT ≤ dt → integrate b dt gravity groundY = integrate b MAX_DT gravity groundY) := by
  refine ⟨?_, ?_, ?_, ?_⟩
  · simp only [integrate]
    split_ifs <;> rfl
  · intro h
    simp only [integrate]
    rw [if_pos h]
    exact ⟨rfl, rfl, rfl⟩
  · intro h
    simp only [integrate]
    rw [if_neg (not_le.mpr h)]
    exact ⟨rfl, rfl, rfl⟩
  · intro h
    simp only [integrate]
    rw [min_eq_right h, min_self]

/-- Witness for C5: a grounded body under one oversized time step lands
clamped on the ground line, and the oversized step equals the clamped one. -/
theorem integrate_spec_witness :
    ((integrate ⟨⟨0, 400⟩, ⟨0, 0⟩, true⟩ 1 800 400).position.y = 400 ∧
     (integrate ⟨⟨0, 400⟩, ⟨0, 0⟩, true⟩ 1 800 400).velocity.y = 0 ∧
     (integrate ⟨⟨0, 400⟩, ⟨0, 0⟩, true⟩ 1 800 400).isGrounded = true) ∧
    integrate ⟨⟨0, 400⟩, ⟨0, 0⟩, true⟩ 1 800 400
      = integrate ⟨⟨0, 400⟩, ⟨0, 0⟩, true⟩ MAX_DT 800 400 :=
  ⟨(integrate_spec ⟨⟨0, 400⟩, ⟨0, 0⟩, true⟩ 1 800 400).2.1
      (by norm_num [MAX_DT, min_def]),
   (integrate_spec ⟨⟨0, 400⟩, ⟨0, 0⟩, true⟩ 1 800 400).2.2.2
      (by norm_num [MAX_DT])⟩

/-- A body the integrator reports grounded has been clamped onto the ground
line with zero vertical velocity. -/
theorem integrate_grounded_fields (b : Body) (dt gravity groundY : ℚ)
    (h : (integrate b dt gravity groundY).isGrounded = true) :
    (integrate b dt gravity groundY).velocity.y = 0 ∧
    (integrate b dt gravity groundY).position.y = groundY := by
  simp only [integrate] at h ⊢
  split_ifs at h ⊢ with hc
  exact ⟨rfl, rfl⟩

/-- A body resting on the ground line with zero vertical velocity is still
grounded after one integration step with nonnegative dt and gravity. -/
theorem integrate_stays_grounded (b : Body) (dt gravity groundY : ℚ)
    (hdt : 0 ≤ dt) (hg : 0 ≤ gravity)
    (hv : b.velocity.y = 0) (hy : b.position.y = groundY) :
    (integrate b dt gravity groundY).isGrounded = true := by
  have hdtc : 0 ≤ min dt MAX_DT := le_min hdt (by norm_num [MAX_DT])
  have hcond : groundY ≤
      b.position.y + (b.velocity.y + gravity * min dt MAX_DT) * min dt MAX_DT := by
    rw [hv, hy]
    nlinarith [mul_nonneg (mul_nonneg hg hdtc) hdtc]
  simp only [integrate]
  rw [if_pos hcond]

/-- If the state machine's input handling leaves the player RUNNING or
CROUCHING, the player is grounded on the ground line with zero vertical
velocity (given the running invariant on the pre-state). -/
theorem applyInput_grounded_cases (groundY : ℚ) (p : Player) (inp : Input)
    (h1 : p.body.isGrounded = true → p.body.velocity.y = 0 ∧ p.body.position.y = groundY)
    (h2 : (p.state = PlayerState.RUNNING ∨ p.state = PlayerState.CROUCHING) →
        p.body.isGrounded = true) :
    ((applyInput p inp).state = PlayerState.RUNNING ∨
        (applyInput p inp).state = PlayerState.CROUCHING) →
      (applyInput p inp).body.isGrounded = true ∧
      (applyInput p inp).body.velocity.y = 0 ∧
      (applyInput p inp).body.position.y = groundY := by
  unfold applyInput
  split_ifs with hj hc hr
  · intro hst
    rcases hst with hst | hst <;> simp at hst
  · intro _
    have hg : p.body.isGrounded = true := by
      simp [Bool.and_eq_true] at hc
      exact hc.1.2
    exact ⟨hg, (h1 hg).1, (h1 hg).2⟩
  · intro _
    have hcr : p.state = PlayerState.CROUCHING := by
      simp [Bool.and_eq_true] at hr
      exact hr.2
    have hg : p.body.isGrounded = true := h2 (Or.inr hcr)
    exact ⟨hg, (h1 hg).1, (h1 hg).2⟩
  · intro hst
    have hg := h2 hst
    exact ⟨hg, (h1 hg).1, (h1 hg).2⟩

/-- One tick of the player state machine preserves the running invariant:
grounded implies zero vertical velocity on the ground line, and RUNNING or
CROUCHING implies grounded. -/
theorem playerUpdate_preserves_inv (groundY : ℚ) (p : Player) (inp : Input)
    (dt : ℚ) (hdt : 0 ≤ dt)
    (h1 : p.body.isGrounded = true → p.body.velocity.y = 0 ∧ p.body.position.y = groundY)
    (h2 : (p.state = PlayerState.RUNNING ∨ p.state = PlayerState.CROUCHING) →
        p.body.isGrounded = true) :
    ((playerUpdate p inp dt groundY).body.isGrounded = true →
        (playerUpdate p inp dt groundY).body.velocity.y = 0 ∧
        (playerUpdate p inp dt groundY).body.position.y = groundY)
  ∧ (((playerUpdate p inp dt groundY).state = PlayerState.RUNNING ∨
      (playerUpdate p inp dt groundY).state = PlayerState.CROUCHING) →
        (playerUpdate p inp dt groundY).body.isGrounded = true) := by
  by_cases hdead : p.state = PlayerState.DEAD
  · simp only [playerUpdate, if_pos hdead]
    exact ⟨h1, h2⟩
  · simp only [playerUpdate, if_neg hdead]
    have hA := integrate_grounded_fields (applyInput p inp).body dt GRAVITY groundY
    have hB := applyInput_grounded_cases groundY p inp h1 h2
    split_ifs with hland
    · refine ⟨fun hg => hA hg, fun _ => ?_⟩
      simp only [Bool.and_eq_true, Bool.not_eq_true'] at hland
      exact hland.1.2
    · refine ⟨fun hg => hA hg, fun hst => ?_⟩
      have hp1 := hB hst
      exact integrate_stays_grounded (applyInput p inp).body dt GRAVITY groundY hdt
        (by norm_num [GRAVITY]) hp1.2.1 hp1.2.2

/-- C6: in every reachable player state, RUNNING or CROUCHING implies zero
vertical velocity and grounded; grounded implies zero vertical velocity; and
once DEAD, physics integration no longer mutates the player until an explicit
reset. -/
theorem player_state_invariants (groundY : ℚ) (p : Player)
    (h : ReachablePlayer groundY p) :
    ((p.state = PlayerState.RUNNING ∨ p.state = PlayerState.CROUCHING) →
        p.body.velocity.y = 0 ∧ p.body.isGrounded = true)
  ∧ (p.body.isGrounded = true → p.body.velocity.y = 0)
  ∧ (∀ (inp : Input) (dt : ℚ), p.state = PlayerState.DEAD →
        playerUpdate p inp dt groundY = p) := by
  have key : (p.body.isGrounded = true →
        p.body.velocity.y = 0 ∧ p.body.position.y = groundY)
      ∧ ((p.state = PlayerState.RUNNING ∨ p.state = PlayerState.CROUCHING) →
        p.body.isGrounded = true) := by
    induction h with
    | start => exact ⟨fun _ => ⟨rfl, rfl⟩, fun _ => rfl⟩
    | tick p inp dt hp hdt ih =>
        exact playerUpdate_preserves_inv groundY p inp dt hdt ih.1 ih.2
    | collide p hp ih =>
        refine ⟨ih.1, fun hst => ?_⟩
        rcases hst with hst | hst <;> simp [forceDead] at hst
    | reset p hp ih => exact ⟨fun _ => ⟨rfl, rfl⟩, fun _ => rfl⟩
  refine ⟨fun hst => ?_, fun hg => (key.1 hg).1, fun inp dt hdead => ?_⟩
  · have hg := key.2 hst
    exact ⟨(key.1 hg).1, hg⟩
  · simp [playerUpdate, hdead]

/-- Witness for C6: the initial player is RUNNING with zero vertical velocity
and grounded. -/
theorem player_state_invariants_witness :
    (initialPlayer 400).body.velocity.y = 0 ∧
    (initialPlayer 400).body.isGrounded = true :=
  (player_state_invariants 400 (initialPlayer 400) ReachablePlayer.start).1
    (Or.inl rfl)

/-- C7: a jump input issued while the player is airborne never changes
velocity.y — the jump request is rejected by the input-handling rules. -/
theorem jump_rejected_while_airborne (p : Player) (inp : Input)
    (hj : inp.jumpPressedThisTick = true) (hg : p.body.isGrounded = false) :
    (applyInput p inp).body.velocity.y = p.body.velocity.y := by
  unfold applyInput
  split_ifs with hc1 hc2 hc3
  · simp [hg] at hc1
  · simp [hg] at hc2
  · rfl
  · rfl

/-- Witness for C7: a concrete airborne player whose jump input leaves
velocity.y untouched. -/
theorem jump_rejected_while_airborne_witness :
    (applyInput ⟨⟨⟨0, 300⟩, ⟨0, -100⟩, false⟩, PlayerState.JUMPING⟩
        ⟨true, false, false⟩).body.velocity.y
      = (⟨⟨⟨0, 300⟩, ⟨0, -100⟩, false⟩, PlayerState.JUMPING⟩ : Player).body.velocity.y :=
  jump_rejected_while_airborne
    ⟨⟨⟨0, 300⟩, ⟨0, -100⟩, false⟩, PlayerState.JUMPING⟩ ⟨true, false, false⟩ rfl rfl

/-- C8: the simulation is deterministic under replay — two runs given the
same PRNG seed, the same dt sequence and the same input sequence produce
identical obstacle sequences and the same collision outcome at the same
elapsedSeconds. -/
theorem replay_is_deterministic (s1 s2 : ℕ) (ts1 ts2 : List (ℚ × Input))
    (hs : s1 = s2) (ht : ts1 = ts2) :
    (runGame s1 ts1).run.spawnLog = (runGame s2 ts2).run.spawnLog
  ∧ (runGame s1 ts1).lastHit = (runGame s2 ts2).lastHit
  ∧ (runGame s1 ts1).run.elapsedSeconds = (runGame s2 ts2).run.elapsedSeconds := by
  subst hs
  subst ht
  exact ⟨rfl, rfl, rfl⟩

/-- Witness for C8: determinism at a concrete seed and tick sequence. -/
theorem replay_is_deterministic_witness :
    (runGame 42 [(1 / 60, ⟨true, false, true⟩)]).run.spawnLog
      = (runGame 42 [(1 / 60, ⟨true, false, true⟩)]).run.spawnLog
  ∧ (runGame 42 [(1 / 60, ⟨true, false, true⟩)]).lastHit
      = (runGame 42 [(1 / 60, ⟨true, false, true⟩)]).lastHit
  ∧ (runGame 42 [(1 / 60, ⟨true, false, true⟩)]).run.elapsedSeconds
      = (runGame 42 [(1 / 60, ⟨true, false, true⟩)]).run.elapsedSeconds :=
  replay_is_deterministic 42 42 [(1 / 60, ⟨true, false, true⟩)]
    [(1 / 60, ⟨true, false, true⟩)] rfl rfl
